import Mathlib

/-!
Verification of the Kunoichi study-guide bot's question-answering pipeline.

Text is modelled as `List Char`; timestamps as rationals (seconds).
Python's `str.split()` is modelled by `splitWs` (split on whitespace,
dropping empty pieces); `str.strip()` by `pyStrip`. The SQLite stats
tables are modelled as finite maps inside `BotState`; `INSERT OR REPLACE`
deletes the conflicting row and re-inserts, so unspecified columns take
their defaults (in particular `created_at` takes `CURRENT_TIMESTAMP`).
The completion gateway is an oracle parameter: `some raw` for a successful
response, `none` for any failure.
-/

namespace Kunoichi

abbrev Chars := List Char

/-- Python `str.split()` tokenization: split on whitespace, drop empty pieces.
Source: `text.split()` in `StudyGuideBot.filter_profanity` (src/main.py). -/
def splitWs (text : Chars) : List Chars :=
  (text.splitOnP (fun c => c.isWhitespace)).filter (fun w => !w.isEmpty)

/-- `re.sub(r'[^a-zA-Z]', '', word.lower())` from `filter_profanity`. -/
def cleanWord (w : Chars) : Chars :=
  (w.map Char.toLower).filter Char.isAlpha

/-- The `profanity_words` set from `StudyGuideBot.__init__` (src/main.py). -/
def profanity_words : List Chars :=
  (["fuck", "shit", "damn", "bitch", "ass", "hell", "crap"]).map String.toList

/-- The body of the per-word loop in `filter_profanity`: a word whose cleaned
form is in the set is replaced by a star run of the word's own length. -/
def maskWord (w : Chars) : Chars :=
  if cleanWord w ∈ profanity_words then List.replicate w.length '*' else w

/-- `StudyGuideBot.filter_profanity` (src/main.py): split on whitespace, mask
each disallowed word, re-join with single spaces. -/
def filter_profanity (text : Chars) : Chars :=
  List.intercalate [' '] ((splitWs text).map maskWord)

/-- Python `str.strip()`: remove leading and trailing whitespace. -/
def pyStrip (l : Chars) : Chars :=
  ((l.dropWhile Char.isWhitespace).reverse.dropWhile Char.isWhitespace).reverse

/-- Python `l[-n:]`: the last `n` elements (the whole list when shorter). -/
def takeLast (n : Nat) (l : List α) : List α :=
  l.drop (l.length - n)

/-- `StudyGuideBot.add_user_context` on one user's list (src/main.py):
append, then keep only the last 5 questions. -/
def add_user_context_list (ctx : List Chars) (q : Chars) : List Chars :=
  let l := ctx ++ [q]
  if 5 < l.length then takeLast 5 l else l

/-- One `channel_stats` row (src/main.py `setup_database`). -/
structure StatsRow where
  questions_answered : Nat
  data_size : Nat
  last_updated : Option ℚ
  created_at : ℚ
deriving DecidableEq

/-- One `question_history` row (src/main.py `setup_database`). -/
structure QuestionRecord where
  channel_id : Nat
  user_id : Nat
  question : Chars
  answer : Chars
  timestamp : ℚ
deriving DecidableEq

/-- One entry of `StudyGuideBot.debug_data`. -/
structure DebugSnapshot where
  question : Chars
  answer : Chars
  timestamp : ℚ
  user_id : Nat
deriving DecidableEq

/-- The bot's mutable state: per-channel knowledge files (raw file contents),
in-memory per-user context, the two SQLite tables, and the debug cache. -/
structure BotState where
  knowledge : Nat → Option Chars
  user_context : Nat → List Chars
  channel_stats : Nat → Option StatsRow
  question_history : List QuestionRecord
  debug_data : Nat → Option DebugSnapshot

/-- `StudyGuideBot.get_channel_data`: read the channel's file and strip it;
`none` when the file does not exist. -/
def get_channel_data (s : BotState) (cid : Nat) : Option Chars :=
  (s.knowledge cid).map pyStrip

/-- `StudyGuideBot.get_user_context`: `self.user_context.get(user_id, [])`. -/
def get_user_context (s : BotState) (uid : Nat) : List Chars :=
  s.user_context uid

/-- `StudyGuideBot.add_user_context` lifted to the state. -/
def add_user_context (s : BotState) (uid : Nat) (q : Chars) : BotState :=
  { s with user_context := fun u =>
      if u = uid then add_user_context_list (s.user_context u) q else s.user_context u }

/-- `StudyGuideBot.update_channel_stats` (src/main.py). With `some size` it is
the upload branch: `INSERT OR REPLACE` of (channel_id, data_size, last_updated,
questions_answered = COALESCE(old, 0)); the replaced row is deleted and
re-inserted, so `created_at` takes its default `CURRENT_TIMESTAMP` (= now).
With `none` it is the question branch: `INSERT OR IGNORE` of a zero row
followed by `UPDATE ... questions_answered + 1, last_updated = now`. -/
def update_channel_stats (s : BotState) (cid : Nat) (data_size : Option Nat) (now : ℚ) :
    BotState :=
  match data_size with
  | some size =>
      let qa := match s.channel_stats cid with
        | some r => r.questions_answered
        | none => 0
      { s with channel_stats := fun c =>
          if c = cid then some ⟨qa, size, some now, now⟩ else s.channel_stats c }
  | none =>
      match s.channel_stats cid with
      | some r =>
          { s with channel_stats := fun c =>
              if c = cid then
                some ⟨r.questions_answered + 1, r.data_size, some now, r.created_at⟩
              else s.channel_stats c }
      | none =>
          { s with channel_stats := fun c =>
              if c = cid then some ⟨1, 0, some now, now⟩ else s.channel_stats c }

/-- `StudyGuideBot.save_channel_data` (successful path): write the raw content
to the channel's file, then `update_channel_stats(channel_id, len(content))`. -/
def save_channel_data (s : BotState) (cid : Nat) (content : Chars) (now : ℚ) : BotState :=
  let s1 : BotState :=
    { s with knowledge := fun c => if c = cid then some content else s.knowledge c }
  update_channel_stats s1 cid (some content.length) now

/-- `StudyGuideBot.log_question`: append a `question_history` row and overwrite
the channel's debug snapshot. -/
def log_question (s : BotState) (cid uid : Nat) (q a : Chars) (now : ℚ) : BotState :=
  { s with
    question_history := s.question_history ++ [⟨cid, uid, q, a, now⟩],
    debug_data := fun c => if c = cid then some ⟨q, a, now, uid⟩ else s.debug_data c }

/-- The SQL lookup in `UserCommands.is_rate_limited`: the most recent
`question_history` timestamp for the user (`ORDER BY timestamp DESC LIMIT 1`). -/
def last_question_time (hist : List QuestionRecord) (uid : Nat) : Option ℚ :=
  ((hist.filter (fun r => r.user_id == uid)).map (fun r => r.timestamp)).max?

/-- `UserCommands.is_rate_limited` (src/cogs/user_commands.py): limited iff the
elapsed time since the user's last question is strictly under 5 seconds. -/
def is_rate_limited (s : BotState) (uid : Nat) (now : ℚ) : Bool :=
  match last_question_time s.question_history uid with
  | some t => decide (now - t < 5)
  | none => false

def prompt_header : Chars :=
  ("Act as a helpful study guide bot for the Sunnie Study Cafe Discord server. \nYou should be friendly, concise, and helpful. Answer based on the provided channel data.\n\nChannel Knowledge Base:\n").toList

def prompt_instructions : Chars :=
  ("\n\nInstructions:\n- If the answer is directly in the knowledge base, use that information\n- If not directly available, use reasoning and general knowledge to provide a helpful answer\n- Keep responses concise but complete\n- Use a friendly, encouraging tone\n- Support markdown formatting in your response\n- If you cannot answer at all, politely explain why\n\nAnswer:").toList

/-- The `context_text` local of `StudyGuideBot.ask_groq`: empty for an empty
context, else a line naming the last 3 questions, comma-joined. -/
def context_text (user_context : List Chars) : Chars :=
  if user_context.isEmpty then []
  else
    ("Recent conversation context: ").toList
      ++ List.intercalate ((", ").toList) (takeLast 3 user_context)
      ++ ("\n\n").toList

/-- The prompt f-string of `StudyGuideBot.ask_groq` (src/main.py). -/
def build_prompt (question channel_data : Chars) (user_context : List Chars) : Chars :=
  prompt_header ++ channel_data ++ ("\n\n").toList
    ++ context_text user_context
    ++ ("Current Question: ").toList ++ question
    ++ prompt_instructions

def apos : Char := Char.ofNat 39

/-- The fixed fallback returned by `ask_groq` when the Groq call fails. -/
def fallback_message : Chars :=
  ("Sorry, I").toList ++ [apos]
    ++ ("m having trouble accessing my AI service right now. Please try again later!").toList

/-- `StudyGuideBot.ask_groq` as a function of the gateway oracle: on success
the raw response is stripped and profanity-filtered; on any failure the fixed
fallback message is returned. -/
def ask_groq (gateway : Option Chars) : Chars :=
  match gateway with
  | some raw => filter_profanity (pyStrip raw)
  | none => fallback_message

inductive Reply where
  | noKnowledgeBase
  | rateLimited
  | answer (text : Chars)
deriving DecidableEq

/-- The result of one `/ask` request: the user-visible reply, whether the
completion gateway was invoked, and the resulting bot state. -/
structure AskOutcome where
  reply : Reply
  gateway_called : Bool
  state : BotState

/-- `UserCommands.ask` (src/cogs/user_commands.py): check the knowledge base,
check the rate limit, call `ask_groq`, then unconditionally append the user
context, increment the channel's stats and log the question — the side effects
run whether or not the gateway succeeded, since `ask_groq` swallows the error
and returns the fallback string. -/
def ask (s : BotState) (cid uid : Nat) (question : Chars) (now : ℚ)
    (gateway : Option Chars) : AskOutcome :=
  match get_channel_data s cid with
  | none => ⟨Reply.noKnowledgeBase, false, s⟩
  | some _channel_data =>
      if is_rate_limited s uid now then ⟨Reply.rateLimited, false, s⟩
      else
        let answer := ask_groq gateway
        let s1 := add_user_context s uid question
        let s2 := update_channel_stats s1 cid none now
        let s3 := log_question s2 cid uid question answer now
        ⟨Reply.answer answer, true, s3⟩

/-- A state with no data at all (fresh process, empty database). -/
def emptyState : BotState :=
  ⟨fun _ => none, fun _ => [], fun _ => none, [], fun _ => none⟩

/-- A state whose channel 1 has a knowledge base and nothing else. -/
def stateKB : BotState :=
  { emptyState with knowledge := fun c =>
      if c = 1 then some (("Cafe hours: 9am-5pm").toList) else none }

/-- A state whose history holds one record by user 7 at time 0. -/
def stateHist : BotState :=
  { emptyState with question_history :=
      [⟨1, 7, ("q").toList, ("a").toList, 0⟩] }

/-- A state whose channel 1 has a stats row: 3 questions answered, size 10,
created at time 0. -/
def stateRow : BotState :=
  { emptyState with channel_stats := fun c =>
      if c = 1 then some ⟨3, 10, none, 0⟩ else none }


/-! ### Helper lemmas about whitespace tokenization -/

theorem mem_splitOnP_no_sep {α : Type} (p : α → Bool) (xs : List α) :
    ∀ w ∈ xs.splitOnP p, ∀ c ∈ w, p c = false := by
  induction xs with
  | nil =>
      intro w hw c hc
      rw [List.splitOnP_nil] at hw
      simp only [List.mem_singleton] at hw
      subst hw
      exact absurd hc (List.not_mem_nil c)
  | cons x xs ih =>
      intro w hw c hc
      rw [List.splitOnP_cons] at hw
      by_cases hx : p x
      · rw [if_pos hx] at hw
        rcases List.mem_cons.mp hw with hw | hw
        · subst hw; exact absurd hc (List.not_mem_nil c)
        · exact ih w hw c hc
      · rw [if_neg hx] at hw
        cases h' : xs.splitOnP p with
        | nil => exact absurd h' (List.splitOnP_ne_nil p xs)
        | cons hd tl =>
            rw [h'] at hw
            simp only [List.modifyHead, List.mem_cons] at hw
            rcases hw with hw | hw
            · subst hw
              rcases List.mem_cons.mp hc with hc | hc
              · subst hc; exact Bool.eq_false_iff.mpr hx
              · exact ih hd (by rw [h']; exact List.mem_cons_self hd tl) c hc
            · exact ih w (by rw [h']; exact List.mem_cons_of_mem hd hw) c hc

theorem splitWs_tokens_ne_nil (text : Chars) : ∀ w ∈ splitWs text, w ≠ [] := by
  intro w hw
  rw [splitWs, List.mem_filter] at hw
  simpa using hw.2

theorem splitWs_tokens_no_ws (text : Chars) :
    ∀ w ∈ splitWs text, ∀ c ∈ w, c.isWhitespace = false := by
  intro w hw
  rw [splitWs, List.mem_filter] at hw
  exact mem_splitOnP_no_sep _ text w hw.1

theorem splitWs_intercalate (ws : List Chars)
    (h1 : ∀ w ∈ ws, w ≠ [])
    (h2 : ∀ w ∈ ws, ∀ c ∈ w, c.isWhitespace = false) :
    splitWs (List.intercalate [' '] ws) = ws := by
  induction ws with
  | nil => rfl
  | cons w tl ih =>
      cases tl with
      | nil =>
          show splitWs (List.intercalate [' '] [w]) = [w]
          have hint : List.intercalate [' '] [w] = w := by
            simp [List.intercalate]
          rw [hint, splitWs]
          have hsingle : w.splitOnP (fun c => c.isWhitespace) = [w] :=
            List.splitOnP_eq_single _ _ (fun c hc => by
              simp [h2 w (List.mem_singleton_self w) c hc])
          rw [hsingle]
          have hne : w ≠ [] := h1 w (List.mem_singleton_self w)
          simp [List.filter_cons, List.isEmpty_iff, hne]
      | cons w' tl' =>
          have hint : List.intercalate [' '] (w :: w' :: tl') =
              w ++ ' ' :: List.intercalate [' '] (w' :: tl') := by
            simp [List.intercalate, List.intersperse_cons_cons, List.flatten]
          rw [hint, splitWs]
          have hfirst : (w ++ ' ' :: List.intercalate [' '] (w' :: tl')).splitOnP
              (fun c => c.isWhitespace) =
              w :: (List.intercalate [' '] (w' :: tl')).splitOnP (fun c => c.isWhitespace) := by
            refine List.splitOnP_first _ _ (fun c hc => by
              simp [h2 w (List.mem_cons_self _ _) c hc]) ' ' (by decide) _
          rw [hfirst]
          have hne : w ≠ [] := h1 w (List.mem_cons_self _ _)
          have htl : splitWs (List.intercalate [' '] (w' :: tl')) = w' :: tl' :=
            ih (fun v hv => h1 v (List.mem_cons_of_mem _ hv))
              (fun v hv => h2 v (List.mem_cons_of_mem _ hv))
          rw [splitWs] at htl
          simp only [List.filter_cons]
          rw [htl]
          simp [List.isEmpty_iff, hne]

/-! ### Helper lemmas about the rolling user context -/

theorem takeLast_length_le {α : Type} (n : Nat) (l : List α) : (takeLast n l).length ≤ n := by
  simp [takeLast]
  omega

theorem takeLast_of_length_le {α : Type} (n : Nat) (l : List α) (h : l.length ≤ n) :
    takeLast n l = l := by
  simp [takeLast, Nat.sub_eq_zero_of_le h]

theorem add_user_context_list_length (ctx : List Chars) (q : Chars) :
    (add_user_context_list ctx q).length ≤ 5 := by
  rw [add_user_context_list]
  split
  · exact takeLast_length_le 5 _
  · next h => omega

theorem add_user_context_list_takeLast (qs : List Chars) (q : Chars) :
    add_user_context_list (takeLast 5 qs) q = takeLast 5 (qs ++ [q]) := by
  rw [add_user_context_list]
  by_cases h : qs.length ≤ 4
  · rw [takeLast_of_length_le 5 qs (by omega)]
    rw [if_neg (by simp; omega)]
    rw [takeLast_of_length_le 5 _ (by simp; omega)]
  · have hlen : (takeLast 5 qs).length = 5 := by simp [takeLast]; omega
    rw [if_pos (by simp [hlen])]
    show takeLast 5 (takeLast 5 qs ++ [q]) = takeLast 5 (qs ++ [q])
    simp only [takeLast, List.length_append, List.length_drop, List.length_cons,
      List.length_nil]
    rw [List.drop_append_eq_append_drop, List.drop_append_eq_append_drop,
      List.drop_drop]
    congr 2 <;> simp
    omega

theorem foldl_add_user_context_list (qs : List Chars) :
    List.foldl add_user_context_list [] qs = takeLast 5 qs := by
  induction qs using List.reverseRecOn with
  | nil => rfl
  | append_singleton qs q ih =>
      rw [List.foldl_append, ih, List.foldl_cons, List.foldl_nil,
        add_user_context_list_takeLast]

/-! ### Frame lemmas about the stats update -/

theorem update_channel_stats_frame (s : BotState) (cid : Nat) (ds : Option Nat) (now : ℚ) :
    (update_channel_stats s cid ds now).knowledge = s.knowledge
    ∧ (update_channel_stats s cid ds now).user_context = s.user_context
    ∧ (update_channel_stats s cid ds now).question_history = s.question_history
    ∧ (update_channel_stats s cid ds now).debug_data = s.debug_data := by
  cases ds with
  | none => cases h : s.channel_stats cid <;> simp [update_channel_stats, h]
  | some size => simp [update_channel_stats]

theorem update_channel_stats_incr_count (s : BotState) (cid : Nat) (now : ℚ) :
    ((update_channel_stats s cid none now).channel_stats cid).map
        StatsRow.questions_answered =
      some ((match s.channel_stats cid with
        | some r => r.questions_answered
        | none => 0) + 1) := by
  cases h : s.channel_stats cid <;> simp [update_channel_stats, h]

theorem ask_success_path (s : BotState) (cid uid : Nat) (question d : Chars) (now : ℚ)
    (gateway : Option Chars) (hkb : get_channel_data s cid = some d)
    (hrl : is_rate_limited s uid now = false) :
    ask s cid uid question now gateway =
      ⟨Reply.answer (ask_groq gateway), true,
        log_question (update_channel_stats (add_user_context s uid question) cid none now)
          cid uid question (ask_groq gateway) now⟩ := by
  simp only [ask, hkb, hrl, Bool.false_eq_true, if_false]

/-! ### Claim theorems -/

/-- C2: `is_rate_limited` returns true iff the elapsed time since the user's
most recent question-history timestamp is strictly less than 5 seconds;
exactly 5 seconds elapsed is not limited, and a user with no record at all is
not limited. -/
theorem c2_rate_limit_boundary (s : BotState) (uid : Nat) (now : ℚ) :
    (is_rate_limited s uid now = true ↔
      ∃ t, last_question_time s.question_history uid = some t ∧ now - t < 5)
    ∧ (last_question_time s.question_history uid = none →
      is_rate_limited s uid now = false)
    ∧ (∀ t, last_question_time s.question_history uid = some t → now - t = 5 →
      is_rate_limited s uid now = false) := by
  refine ⟨?_, ?_, ?_⟩
  · cases h : last_question_time s.question_history uid with
    | none => simp [is_rate_limited, h]
    | some t => simp [is_rate_limited, h]
  · intro h
    simp [is_rate_limited, h]
  · intro t h h5
    simp [is_rate_limited, h, h5]

/-- C2 witness: with one record by user 7 at time 0, the user is limited at
time 3 and no longer limited at exactly time 5. -/
theorem c2_rate_limit_boundary_witness :
    is_rate_limited stateHist 7 3 = true ∧ is_rate_limited stateHist 7 5 = false :=
  ⟨(c2_rate_limit_boundary stateHist 7 3).1.mpr ⟨0, rfl, by norm_num⟩,
   (c2_rate_limit_boundary stateHist 7 5).2.2 0 rfl (by norm_num)⟩

/-- C3: a single append leaves at most 5 entries; any sequence of appends
starting from the empty context leaves exactly the last 5 questions in order
(most-recent-last, oldest evicted first); in particular appending q1..q7
leaves [q3, q4, q5, q6, q7]. The state-level `add_user_context` updates the
user's list exactly by `add_user_context_list`. -/
theorem c3_context_window (s : BotState) (uid : Nat) (ctx : List Chars) (q : Chars)
    (qs : List Chars) (q1 q2 q3 q4 q5 q6 q7 : Chars) :
    (add_user_context_list ctx q).length ≤ 5
    ∧ List.foldl add_user_context_list [] qs = takeLast 5 qs
    ∧ List.foldl add_user_context_list [] [q1, q2, q3, q4, q5, q6, q7]
        = [q3, q4, q5, q6, q7]
    ∧ (add_user_context s uid q).user_context uid
        = add_user_context_list (s.user_context uid) q := by
  refine ⟨add_user_context_list_length ctx q, foldl_add_user_context_list qs, ?_, ?_⟩
  · rw [foldl_add_user_context_list]
    rfl
  · simp [add_user_context]

/-- C5: when the channel has no knowledge base, `ask` returns the
"no knowledge base" rejection, does not call the completion gateway and
leaves the whole state unchanged. -/
theorem c5_no_knowledge_base (s : BotState) (cid uid : Nat) (question : Chars)
    (now : ℚ) (gateway : Option Chars) (h : get_channel_data s cid = none) :
    ask s cid uid question now gateway = ⟨Reply.noKnowledgeBase, false, s⟩ := by
  simp [ask, h]

/-- C5 witness: on the empty state the request is rejected with no gateway
call and no state change. -/
theorem c5_no_knowledge_base_witness :
    ask emptyState 1 2 (("hi").toList) 0 none =
      ⟨Reply.noKnowledgeBase, false, emptyState⟩ :=
  c5_no_knowledge_base emptyState 1 2 (("hi").toList) 0 none rfl

/-- C7: after a save, `get_channel_data` returns the saved text with leading
and trailing whitespace trimmed; in particular saving "abc" reads back "abc". -/
theorem c7_save_get_roundtrip (s : BotState) (cid : Nat) (text : Chars) (now : ℚ) :
    get_channel_data (save_channel_data s cid text now) cid = some (pyStrip text)
    ∧ get_channel_data (save_channel_data s cid (("abc").toList) now) cid =
        some (("abc").toList) := by
  constructor
  · simp [get_channel_data, save_channel_data, update_channel_stats]
  · simp [get_channel_data, save_channel_data, update_channel_stats]
    rfl

/-- C8: the upload branch of `update_channel_stats` keeps the existing
questions_answered count when a row already existed, and initializes it to 0
when none existed. -/
theorem c8_upload_preserves_count (s : BotState) (cid size : Nat) (now : ℚ) :
    (∀ r, s.channel_stats cid = some r →
      ((update_channel_stats s cid (some size) now).channel_stats cid).map
        StatsRow.questions_answered = some r.questions_answered)
    ∧ (s.channel_stats cid = none →
      ((update_channel_stats s cid (some size) now).channel_stats cid).map
        StatsRow.questions_answered = some 0) := by
  constructor
  · intro r hr
    simp [update_channel_stats, hr]
  · intro h
    simp [update_channel_stats, h]

/-- C8 witness: uploading to a channel with 3 answered questions keeps the
count at 3; uploading to a fresh channel initializes the count to 0. -/
theorem c8_upload_preserves_count_witness :
    ((update_channel_stats stateRow 1 (some 99) 2).channel_stats 1).map
        StatsRow.questions_answered = some 3
    ∧ ((update_channel_stats emptyState 1 (some 99) 2).channel_stats 1).map
        StatsRow.questions_answered = some 0 :=
  ⟨(c8_upload_preserves_count stateRow 1 99 2).1 ⟨3, 10, none, 0⟩ rfl,
   (c8_upload_preserves_count emptyState 1 99 2).2 rfl⟩

/-- C10: a knowledge-base save on a channel that already has a stats row
replaces the whole row (INSERT OR REPLACE): questions_answered is preserved
but created_at is reset to the current time. -/
theorem c10_replace_resets_created_at (s : BotState) (cid size : Nat) (now : ℚ)
    (r : StatsRow) (h : s.channel_stats cid = some r) :
    (update_channel_stats s cid (some size) now).channel_stats cid =
      some ⟨r.questions_answered, size, some now, now⟩ := by
  simp [update_channel_stats, h]

/-- C10 witness: the row of channel 1 (created at time 0) is replaced at time 2
with created_at 2, still showing 3 answered questions. -/
theorem c10_replace_resets_created_at_witness :
    (update_channel_stats stateRow 1 (some 99) 2).channel_stats 1 =
      some ⟨3, 99, some 2, 2⟩ :=
  c10_replace_resets_created_at stateRow 1 99 2 ⟨3, 10, none, 0⟩ rfl

/-- C1 counterexample: with a knowledge base present, a non-limited user and a
failing gateway, `ask` does return the fallback string — but the user context,
the question log, the channel counter and the debug snapshot all change, so
the claim that a gateway failure causes no side effects is false on the code. -/
theorem c1_counterexample :
    (ask stateKB 1 7 (("hi").toList) 0 none).reply = Reply.answer fallback_message
    ∧ (ask stateKB 1 7 (("hi").toList) 0 none).state.user_context 7 ≠
        stateKB.user_context 7
    ∧ (ask stateKB 1 7 (("hi").toList) 0 none).state.question_history ≠
        stateKB.question_history
    ∧ ((ask stateKB 1 7 (("hi").toList) 0 none).state.channel_stats 1).map
        StatsRow.questions_answered ≠
        (stateKB.channel_stats 1).map StatsRow.questions_answered
    ∧ (ask stateKB 1 7 (("hi").toList) 0 none).state.debug_data 1 ≠
        stateKB.debug_data 1 := by
  refine ⟨by decide, by decide, by decide, by decide, by decide⟩

/-- C1 (amended): when the completion gateway fails, `ask` returns the fixed
fallback string, but — unlike the claim — it still performs the bookkeeping:
the question is appended to the user's context, the channel's
questions_answered counter is incremented, a QuestionRecord carrying the
fallback as answer is appended to the log, and the DebugSnapshot is
overwritten. -/
theorem c1_fallback_still_records (s : BotState) (cid uid : Nat) (question d : Chars)
    (now : ℚ) (hkb : get_channel_data s cid = some d)
    (hrl : is_rate_limited s uid now = false) :
    (ask s cid uid question now none).reply = Reply.answer fallback_message
    ∧ (ask s cid uid question now none).state.user_context uid =
        add_user_context_list (s.user_context uid) question
    ∧ ((ask s cid uid question now none).state.channel_stats cid).map
        StatsRow.questions_answered =
        some ((match s.channel_stats cid with
          | some r => r.questions_answered
          | none => 0) + 1)
    ∧ (ask s cid uid question now none).state.question_history =
        s.question_history ++ [⟨cid, uid, question, fallback_message, now⟩]
    ∧ (ask s cid uid question now none).state.debug_data cid =
        some ⟨question, fallback_message, now, uid⟩ := by
  have hout := ask_success_path s cid uid question d now none hkb hrl
  rw [hout]
  have hframe := update_channel_stats_frame (add_user_context s uid question) cid none now
  refine ⟨rfl, ?_, ?_, ?_, ?_⟩
  · show (log_question _ cid uid question _ now).user_context uid = _
    rw [log_question]
    rw [hframe.2.1]
    simp [add_user_context]
  · show ((log_question _ cid uid question _ now).channel_stats cid).map _ = _
    rw [log_question]
    have := update_channel_stats_incr_count (add_user_context s uid question) cid now
    simpa [add_user_context] using this
  · show (log_question _ cid uid question _ now).question_history = _
    rw [log_question]
    rw [hframe.2.2.1]
    simp [add_user_context, ask_groq]
  · show (log_question _ cid uid question _ now).debug_data cid = _
    simp [log_question, ask_groq]

/-- C1 witness: the amended behaviour at a concrete state with a knowledge
base for channel 1 and an empty history. -/
theorem c1_fallback_still_records_witness :
    (ask stateKB 1 7 (("hi").toList) 0 none).reply = Reply.answer fallback_message
    ∧ (ask stateKB 1 7 (("hi").toList) 0 none).state.user_context 7 =
        add_user_context_list (stateKB.user_context 7) (("hi").toList)
    ∧ ((ask stateKB 1 7 (("hi").toList) 0 none).state.channel_stats 1).map
        StatsRow.questions_answered =
        some ((match stateKB.channel_stats 1 with
          | some r => r.questions_answered
          | none => 0) + 1)
    ∧ (ask stateKB 1 7 (("hi").toList) 0 none).state.question_history =
        stateKB.question_history ++ [⟨1, 7, ("hi").toList, fallback_message, 0⟩]
    ∧ (ask stateKB 1 7 (("hi").toList) 0 none).state.debug_data 1 =
        some ⟨("hi").toList, fallback_message, 0, 7⟩ :=
  c1_fallback_still_records stateKB 1 7 (("hi").toList)
    (pyStrip (("Cafe hours: 9am-5pm").toList)) 0 rfl rfl

/-- C4: `filter_profanity` splits on whitespace, replaces each token whose
lower-cased alphabetic-only form is a disallowed word by a star run exactly as
long as the original token (punctuation and casing included), keeps every
other token unchanged, and re-joins with single spaces; filtering "Damn!"
yields a 5-character mask. -/
theorem c4_filter_masks_full_token (text : Chars) :
    filter_profanity text = List.intercalate [' '] ((splitWs text).map maskWord)
    ∧ (∀ w ∈ splitWs text,
        (cleanWord w ∈ profanity_words → maskWord w = List.replicate w.length '*')
        ∧ (cleanWord w ∉ profanity_words → maskWord w = w))
    ∧ filter_profanity (("Damn!").toList) = List.replicate 5 '*' := by
  refine ⟨rfl, ?_, by decide⟩
  intro w _
  exact ⟨fun h => by rw [maskWord, if_pos h], fun h => by rw [maskWord, if_neg h]⟩

/-- C4 witness: the token "Damn!" is in the disallowed set after cleaning and
is masked to exactly 5 stars. -/
theorem c4_filter_masks_full_token_witness :
    maskWord (("Damn!").toList) = List.replicate 5 '*' :=
  ((c4_filter_masks_full_token (("Damn!").toList)).2.1 (("Damn!").toList)
    (by decide)).1 (by decide)

/-- C6: the prompt contains the knowledge-base text verbatim and the question
literally; when the recent context is non-empty it contains the context line
made of exactly the last 3 entries comma-joined, and when the context is empty
the prompt is the bare template with no context line. -/
theorem c6_prompt_contents (q kb : Chars) (ctx : List Chars) :
    (∃ pre post, build_prompt q kb ctx = pre ++ kb ++ post)
    ∧ (∃ pre post, build_prompt q kb ctx = pre ++ q ++ post)
    ∧ (ctx ≠ [] → ∃ pre post, build_prompt q kb ctx =
        pre ++ (("Recent conversation context: ").toList
          ++ List.intercalate ((", ").toList) (takeLast 3 ctx)
          ++ ("\n\n").toList) ++ post)
    ∧ (ctx = [] → build_prompt q kb ctx =
        prompt_header ++ kb ++ ("\n\n").toList
          ++ ("Current Question: ").toList ++ q ++ prompt_instructions) := by
  refine ⟨?_, ?_, ?_, ?_⟩
  · exact ⟨prompt_header,
      ("\n\n").toList ++ context_text ctx ++ ("Current Question: ").toList
        ++ q ++ prompt_instructions,
      by simp [build_prompt]⟩
  · exact ⟨prompt_header ++ kb ++ ("\n\n").toList ++ context_text ctx
        ++ ("Current Question: ").toList,
      prompt_instructions,
      by simp [build_prompt]⟩
  · intro h
    have hne : ctx.isEmpty = false := by
      simpa [List.isEmpty_iff] using h
    exact ⟨prompt_header ++ kb ++ ("\n\n").toList,
      ("Current Question: ").toList ++ q ++ prompt_instructions,
      by simp [build_prompt, context_text, hne]⟩
  · intro h
    subst h
    simp [build_prompt, context_text]

/-- C6 witness: with context ["a"], the context line with the last 3 entries
appears inside the prompt. -/
theorem c6_prompt_contents_witness :
    ∃ pre post, build_prompt (("Q?").toList) (("KB text").toList) [("a").toList] =
      pre ++ (("Recent conversation context: ").toList
        ++ List.intercalate ((", ").toList) (takeLast 3 [("a").toList])
        ++ ("\n\n").toList) ++ post :=
  (c6_prompt_contents (("Q?").toList) (("KB text").toList) [("a").toList]).2.2.1
    (by decide)

/-- C9: `filter_profanity` is idempotent on any text none of whose whitespace
tokens has a cleaned form in the disallowed-word set. -/
theorem c9_filter_idempotent_on_clean (x : Chars)
    (h : ∀ w ∈ splitWs x, cleanWord w ∉ profanity_words) :
    filter_profanity (filter_profanity x) = filter_profanity x := by
  have hmask : ∀ w ∈ splitWs x, maskWord w = w := fun w hw => by
    rw [maskWord, if_neg (h w hw)]
  have hmap : (splitWs x).map maskWord = splitWs x := by
    calc (splitWs x).map maskWord = (splitWs x).map id := List.map_congr_left hmask
    _ = splitWs x := List.map_id (splitWs x)
  have hx : filter_profanity x = List.intercalate [' '] (splitWs x) := by
    rw [filter_profanity, hmap]
  rw [hx, filter_profanity,
    splitWs_intercalate (splitWs x) (splitWs_tokens_ne_nil x) (splitWs_tokens_no_ws x),
    hmap]

/-- C9 witness: a concrete clean sentence is a fixed point of the filter after
one application. -/
theorem c9_filter_idempotent_on_clean_witness :
    filter_profanity (filter_profanity (("hello there, friend!").toList)) =
      filter_profanity (("hello there, friend!").toList) :=
  c9_filter_idempotent_on_clean (("hello there, friend!").toList) (by decide)

end Kunoichi
